import Mathlib

/-
Shallow embedding of the Rithmm calculator (src/rithmm_calculator.py).

The program normalizes a heterogeneous pandas table of bet records
(`preprocess_data`, lines 52-121), filters it through an ordered sequence of
stages keyed on the query (lines 181-240), computes win statistics
(lines 245-248) and classifies the selection as a smart bet (lines 259-271).

Modelling conventions:
  * pandas cells are `Cell`: a numeric value, a string, or null (NaN).
    Python floats are modelled by `Rat`; the exact decimal rendering of a
    numeric cell by Python `str` is abstracted by `cellStr`.
  * a pandas DataFrame is a `Table`: each possibly-present column is an
    `Option (List Cell)`; `model_name` is always present (the loader adds it).
  * the filter pipeline operates on normalized rows (`Record`) whose canonical
    numeric fields exist, as guaranteed by the data model; the presence of the
    genuinely optional `pred_total_winner` and `bet` columns, on which the
    source branches at table level (lines 212-215), is tracked by `Cols`.
  * pandas `Series.str.contains(pat, case=False, na=False)` on the plain-text
    patterns used here ("Home", "Away", "Over", "Under") is case-insensitive
    substring containment, with null (or non-string) cells never matching.
-/

/-- Uppercased character list of a string (character-level model of
Python `.upper()`; `String.toUpper` itself does not kernel-reduce). -/
def upChars (s : String) : List Char :=
  s.data.map Char.toUpper

/-- Does the list start with the given pattern list? -/
def startsWithL : List Char → List Char → Bool
  | _, [] => true
  | [], _ :: _ => false
  | a :: as, b :: bs => a == b && startsWithL as bs

/-- Does the list contain the pattern list as a contiguous run? -/
def containsSub : List Char → List Char → Bool
  | [], pat => pat.isEmpty
  | a :: s, pat => startsWithL (a :: s) pat || containsSub s pat

/-- Case-insensitive substring containment: the model of Python
`pat.upper() in s.upper()` and of pandas `.str.contains(pat, case=False)`
for the regex-free patterns this program uses. -/
def icontains (s pat : String) : Bool :=
  containsSub (upChars s) (upChars pat)

/-- A pandas cell: numeric (Python float, modelled by `Rat`), string, or NaN. -/
inductive Cell where
  | num (q : Rat)
  | str (s : String)
  | null
deriving DecidableEq

/-- Is the cell a (non-null) numeric value? -/
def cellIsNum : Cell → Bool
  | Cell.num _ => true
  | _ => false

/-- Python `str(x)` applied to a cell.  The precise decimal rendering of a
numeric value is abstracted (`toString` on `Rat`); NaN renders as "nan". -/
def cellStr : Cell → String
  | Cell.num q => toString q
  | Cell.str s => s
  | Cell.null => "nan"

/-- pandas `Series.fillna(0.0)` on one cell (line 96). -/
def fillna0 : Cell → Cell
  | Cell.null => Cell.num 0
  | c => c

/-- Value of a digit run, most significant first. -/
def digitsVal (ds : List Char) : Nat :=
  ds.foldl (fun a c => 10 * a + (c.toNat - 48)) 0

/-- Value of a fractional digit run (the part after the decimal point). -/
def fracVal (ds : List Char) : Rat :=
  if ds.isEmpty then 0 else (digitsVal ds : Rat) / ((10 : Rat) ^ ds.length)

/-- Attempt to match the regex `-?\d+\.?\d*` (line 101) anchored at the head
of the character list, returning the numeric value of the greedy match. -/
def matchNumAt (cs : List Char) : Option Rat :=
  let p := match cs with
    | '-' :: rest => (true, rest)
    | _ => (false, cs)
  let ds := p.2.takeWhile Char.isDigit
  let rest := p.2.dropWhile Char.isDigit
  if ds.isEmpty then none
  else
    let fds := match rest with
      | '.' :: r2 => r2.takeWhile Char.isDigit
      | _ => []
    let v : Rat := (digitsVal ds : Rat) + fracVal fds
    some (if p.1 then -v else v)

/-- Leftmost match of `-?\d+\.?\d*` in the character list, as `re.search`
finds it (line 101). -/
def searchNum : List Char → Option Rat
  | [] => none
  | c :: rest =>
    match matchNumAt (c :: rest) with
    | some v => some v
    | none => searchNum rest

/-- The `extract_spread` helper (lines 100-107): first numeric run of
`str(text)`, else 0.0.  The `float` conversion of a matched run never fails,
so the `except` branch returning 0.0 is unreachable. -/
def extract_spread (x : Cell) : Rat :=
  match searchNum (cellStr x).data with
  | some v => v
  | none => 0

/-- Model of `pd.to_numeric(x, errors='coerce')` on one cell (line 117):
numbers pass through, parsable decimal strings become numbers, anything else
becomes NaN.  The parser accepts optional surrounding spaces, an optional
sign and a decimal literal; exponent forms are abstracted away. -/
def parseNum (s : String) : Option Rat :=
  let t := (((s.data.dropWhile (fun c => c == ' ')).reverse.dropWhile
      (fun c => c == ' ')).reverse)
  let p := match t with
    | '-' :: rest => (true, rest)
    | '+' :: rest => (false, rest)
    | _ => (false, t)
  let ds := p.2.takeWhile Char.isDigit
  let rest1 := p.2.dropWhile Char.isDigit
  let q := match rest1 with
    | '.' :: r2 => (r2.takeWhile Char.isDigit, r2.dropWhile Char.isDigit)
    | _ => ([], rest1)
  if (ds.isEmpty && q.1.isEmpty) || !q.2.isEmpty then none
  else
    let v : Rat := (digitsVal ds : Rat) + fracVal q.1
    some (if p.1 then -v else v)

/-- One cell under `pd.to_numeric(·, errors='coerce')`. -/
def to_numeric : Cell → Cell
  | Cell.num q => Cell.num q
  | Cell.str s =>
    match parseNum s with
    | some q => Cell.num q
    | none => Cell.null
  | Cell.null => Cell.null

/-- The `infer_home_away` helper (lines 74-81): uppercase `str(x)` and test
"HOME" then "AWAY" as substrings (`icontains` uppercases both sides, which
is equivalent). -/
def infer_home_away (x : Cell) : String :=
  if icontains (cellStr x) "HOME" then "Home"
  else if icontains (cellStr x) "AWAY" then "Away"
  else "Both"

/-- A pandas DataFrame over the columns this program reads or writes: each
possibly-absent column is `Option (List Cell)`; `model_name` is always
present because the loader adds it to every frame (line 40). -/
structure Table where
  bet_type : Option (List Cell)
  spread_type : Option (List Cell)
  home_away : Option (List Cell)
  bet : Option (List Cell)
  home_team : Option (List Cell)
  spread_value : Option (List Cell)
  rounded_spread : Option (List Cell)
  pred_spread : Option (List Cell)
  spread : Option (List Cell)
  auto_spread : Option (List Cell)
  dtm : Option (List Cell)
  roi_percent : Option (List Cell)
  win_probability : Option (List Cell)
  bet_result : Option (List Cell)
  pred_total_winner : Option (List Cell)
  model_name : List Cell
deriving DecidableEq

/-- Lines 66-70: default the "bet type" column from "spread_type", else to
the broadcast scalar "Favorite Spreads". -/
def step_bet_type (df : Table) : Table :=
  match df.bet_type with
  | some _ => df
  | none =>
    match df.spread_type with
    | some c => { df with bet_type := some c }
    | none =>
      let c := List.replicate df.model_name.length (Cell.str "Favorite Spreads")
      { df with bet_type := some c }

/-- Lines 72-86: create "home/away" when missing, inferring from "bet" text,
else defaulting to "Home" when a "home team" column exists, else "Both". -/
def step_home_away (df : Table) : Table :=
  match df.home_away with
  | some _ => df
  | none =>
    match df.bet with
    | some c =>
      { df with home_away := some (c.map (fun x => Cell.str (infer_home_away x))) }
    | none =>
      match df.home_team with
      | some _ =>
        let c := List.replicate df.model_name.length (Cell.str "Home")
        { df with home_away := some c }
      | none =>
        let c := List.replicate df.model_name.length (Cell.str "Both")
        { df with home_away := some c }

/-- Lines 89-94: the first present column among "spread value",
"rounded_spread", "pred_spread", "spread", in that priority order. -/
def firstSpreadCol (df : Table) : Option (List Cell) :=
  match df.spread_value with
  | some c => some c
  | none =>
    match df.rounded_spread with
    | some c => some c
    | none =>
      match df.pred_spread with
      | some c => some c
      | none => df.spread

/-- Lines 95-110: derive "auto_spread" from the detected spread column
(nulls filled with 0.0), else extract a number from "bet" per row (after a
warning), else the broadcast scalar 0.0. -/
def step_auto_spread (df : Table) : Table :=
  match firstSpreadCol df with
  | some c => { df with auto_spread := some (c.map fillna0) }
  | none =>
    match df.bet with
    | some c =>
      { df with auto_spread := some (c.map (fun x => Cell.num (extract_spread x))) }
    | none =>
      let c := List.replicate df.model_name.length (Cell.num 0)
      { df with auto_spread := some c }

/-- Lines 112-114 for "dtm": create the column as broadcast 0.0 if absent. -/
def step_dtm (df : Table) : Table :=
  match df.dtm with
  | some _ => df
  | none =>
    { df with dtm := some (List.replicate df.model_name.length (Cell.num 0)) }

/-- Lines 112-114 for "roi (%)": create the column as broadcast 0.0 if absent. -/
def step_roi (df : Table) : Table :=
  match df.roi_percent with
  | some _ => df
  | none =>
    let c := List.replicate df.model_name.length (Cell.num 0)
    { df with roi_percent := some c }

/-- Lines 116-117: if "win probability" exists, coerce it to numeric with
unparsable values becoming 0.0.  Note: the column is NOT created when it is
absent from the input. -/
def step_win_prob (df : Table) : Table :=
  match df.win_probability with
  | some c =>
    { df with win_probability := some (c.map (fun x => fillna0 (to_numeric x))) }
  | none => df

/-- Lines 118-119: if "bet result" exists, coerce every cell to its string
representation.  The column is not created when absent. -/
def step_bet_result (df : Table) : Table :=
  match df.bet_result with
  | some c => { df with bet_result := some (c.map (fun x => Cell.str (cellStr x))) }
  | none => df

/-- The `preprocess_data` function (lines 52-121) as the composition of its
sequential column-normalization sections. -/
def preprocess_data (df : Table) : Table :=
  step_bet_result (step_win_prob (step_roi (step_dtm
    (step_auto_spread (step_home_away (step_bet_type df))))))

/-- A normalized bet record (one row after `preprocess_data`): the canonical
numeric and string fields all exist; `home_away`, `pred_total_winner` and
`bet` cells may still be null (`none`), which pandas `.str.contains`
with `na=False` treats as never matching. -/
structure Record where
  model_name : String
  bet_type : String
  home_away : Option String
  auto_spread : Rat
  win_probability : Rat
  dtm : Rat
  roi_percent : Rat
  bet_result : String
  pred_total_winner : Option String
  bet : Option String
deriving DecidableEq

/-- Column-presence flags for the two genuinely optional columns the
pipeline branches on at table level (lines 212-215). -/
structure Cols where
  pred_total_winner : Bool
  bet : Bool
deriving DecidableEq

/-- The bet-type dropdown options (lines 143-147). -/
inductive BetType where
  | spreadWin
  | moneylineWin
  | overWin
deriving DecidableEq

/-- Spread Outcome options (line 153). -/
inductive SpreadOutcome where
  | favorite
  | underdog
  | both
deriving DecidableEq

/-- Favorite/Underdog options for moneyline bets (line 158). -/
inductive FavUnderdog where
  | favorite
  | underdog
deriving DecidableEq

/-- Totals Outcome options (line 163). -/
inductive TotalsOutcome where
  | over
  | under
deriving DecidableEq

/-- Home/Away/Both options (line 168). -/
inductive HomeAway where
  | home
  | away
  | both
deriving DecidableEq

/-- The user-selected filter configuration (lines 134-174).  The sub-outcome
dropdowns are `Option`s exactly as in the source, where each is `None`
unless its bet type is selected. -/
structure Query where
  model : String
  bet_type : BetType
  spread_outcome : Option SpreadOutcome
  fav_underdog : Option FavUnderdog
  totals_outcome : Option TotalsOutcome
  home_away : HomeAway
  win_prob_lo : Rat
  win_prob_hi : Rat
  dtm_lo : Rat
  dtm_hi : Rat
  include_spread : Bool
deriving DecidableEq

/-- The string the Home/Away dropdown passes to `.str.contains` (line 199). -/
def homeAwayStr : HomeAway → String
  | HomeAway.home => "Home"
  | HomeAway.away => "Away"
  | HomeAway.both => "Both"

/-- The string the Totals Outcome dropdown passes to `.str.contains`
(lines 213-215). -/
def totalsStr : TotalsOutcome → String
  | TotalsOutcome.over => "Over"
  | TotalsOutcome.under => "Under"

/-- One cell under `.str.contains(pat, case=False, na=False)`: null never
matches; a string matches when it contains the pattern case-insensitively. -/
def cellContains (v : Option String) (pat : String) : Bool :=
  match v with
  | some s => icontains s pat
  | none => false

/-- Stage 1 (line 184): keep records of the selected model. -/
def stageModel (q : Query) (l : List Record) : List Record :=
  l.filter (fun r => r.model_name == q.model)

/-- Stage 2 (lines 187-195): for SpreadWin keep nonzero `auto_spread`; for
OverWin and MoneylineWin no filtering happens here. -/
def stageBetType (q : Query) (l : List Record) : List Record :=
  match q.bet_type with
  | BetType.spreadWin => l.filter (fun r => !(r.auto_spread == 0))
  | BetType.overWin => l
  | BetType.moneylineWin => l

/-- Stage 3 (lines 198-199): unless the bet type is OverWin or the dropdown
is "Both", keep records whose "home/away" value contains the selection
case-insensitively. -/
def stageHomeAway (q : Query) (l : List Record) : List Record :=
  if q.bet_type ≠ BetType.overWin ∧ q.home_away ≠ HomeAway.both then
    l.filter (fun r => cellContains r.home_away (homeAwayStr q.home_away))
  else l

/-- Stage 4 (lines 202-207): for SpreadWin with a selected spread outcome,
Favorite keeps negative spreads, Underdog positive ones, Both filters
nothing. -/
def stageSpreadOutcome (q : Query) (l : List Record) : List Record :=
  if q.bet_type = BetType.spreadWin then
    match q.spread_outcome with
    | some SpreadOutcome.favorite => l.filter (fun r => decide (r.auto_spread < 0))
    | some SpreadOutcome.underdog => l.filter (fun r => decide (0 < r.auto_spread))
    | some SpreadOutcome.both => l
    | none => l
  else l

/-- Stage 5 (lines 210-215): for OverWin with a selected totals outcome,
test `pred_total_winner` when that column exists, else `bet` when it
exists, else filter nothing. -/
def stageTotals (cols : Cols) (q : Query) (l : List Record) : List Record :=
  if q.bet_type = BetType.overWin then
    match q.totals_outcome with
    | some t =>
      if cols.pred_total_winner then
        l.filter (fun r => cellContains r.pred_total_winner (totalsStr t))
      else if cols.bet then
        l.filter (fun r => cellContains r.bet (totalsStr t))
      else l
    | none => l
  else l

/-- Stage 6 (lines 218-222): for MoneylineWin, Favorite keeps
`win probability > 50`, Underdog keeps `win probability <= 50`. -/
def stageMoneyline (q : Query) (l : List Record) : List Record :=
  if q.bet_type = BetType.moneylineWin then
    match q.fav_underdog with
    | some FavUnderdog.favorite => l.filter (fun r => decide (50 < r.win_probability))
    | some FavUnderdog.underdog => l.filter (fun r => decide (r.win_probability ≤ 50))
    | none => l
  else l

/-- Stage 7 (lines 225-229): closed win-probability interval.  After
normalization the "win probability" column exists on every record this
pipeline models, so the source's column-presence guard holds. -/
def stageWinProb (q : Query) (l : List Record) : List Record :=
  l.filter (fun r =>
    decide (q.win_prob_lo ≤ r.win_probability) && decide (r.win_probability ≤ q.win_prob_hi))

/-- Stage 8 (lines 232-236): closed DTM interval; the "dtm" column always
exists after normalization. -/
def stageDtm (q : Query) (l : List Record) : List Record :=
  l.filter (fun r => decide (q.dtm_lo ≤ r.dtm) && decide (r.dtm ≤ q.dtm_hi))

/-- The record transform of line 240: the output copy's `auto_spread` is
replaced by 0.0. -/
def zeroSpread (r : Record) : Record :=
  { r with auto_spread := 0 }

/-- Stage 9 (lines 238-240): when spread is not included, zero out
`auto_spread` on every surviving record of the output copy. -/
def stageSpreadExclusion (q : Query) (l : List Record) : List Record :=
  if q.include_spread then l else l.map zeroSpread

/-- The full filter pipeline (lines 181-240), stages in source order.  The
source works on `data.copy()`, so the pipeline is a pure function of the
stored table; this embedding makes that purity intrinsic. -/
def filterPipeline (cols : Cols) (q : Query) (data : List Record) : List Record :=
  stageSpreadExclusion q (stageDtm q (stageWinProb q (stageMoneyline q
    (stageTotals cols q (stageSpreadOutcome q (stageHomeAway q
      (stageBetType q (stageModel q data))))))))

/-- Line 245: `total_bets = len(filtered_data)`. -/
def total_bets (l : List Record) : Nat :=
  l.length

/-- Line 246: `value_counts().get("WIN", 0)` counts the rows whose
"bet result" equals "WIN" exactly (case-sensitive). -/
def total_wins (l : List Record) : Nat :=
  List.countP (fun r => r.bet_result == "WIN") l

/-- Line 247: `total_losses = total_bets - total_wins`. -/
def total_losses (l : List Record) : Nat :=
  total_bets l - total_wins l

/-- Line 248: win percentage, 0 when the subset is empty. -/
def win_percentage (l : List Record) : Rat :=
  if 0 < total_bets l then (total_wins l : Rat) / (total_bets l : Rat) * 100 else 0

/-- pandas `Series.mean()` of the "roi (%)" column: `none` models the NaN
mean of an empty column (roi cells are numeric after normalization). -/
def roiMean (l : List Record) : Option Rat :=
  if l.isEmpty then none else some ((l.map Record.roi_percent).sum / (l.length : Rat))

/-- The comparison `filtered_data["roi (%)"].mean() >= 10` (lines 267, 270):
a NaN mean compares false. -/
def roiMeanGE10 (l : List Record) : Bool :=
  match roiMean l with
  | none => false
  | some m => decide (10 ≤ m)

/-- The smart-bet classification (lines 259-271), a function of the query's
bet type and sub-outcome and of the filtered subset.  Python `and`/`or`
short-circuit exactly as the boolean operators here do. -/
def is_smart_bet (q : Query) (l : List Record) : Bool :=
  match q.bet_type with
  | BetType.spreadWin | BetType.overWin =>
    if 10 ≤ total_bets l ∧ 60 ≤ win_percentage l then true
    else if 4 ≤ total_bets l ∧ total_bets l < 10 ∧ 70 ≤ win_percentage l then true
    else false
  | BetType.moneylineWin =>
    match q.fav_underdog with
    | some FavUnderdog.underdog =>
      decide (50 ≤ win_percentage l) || roiMeanGE10 l
    | some FavUnderdog.favorite =>
      decide (65 ≤ win_percentage l) || roiMeanGE10 l
    | none => false

/-- Predicate of stage 1 as a function of one record. -/
def pModel (q : Query) (r : Record) : Bool :=
  r.model_name == q.model

/-- Predicate of stage 2 (true where the stage filters nothing). -/
def pBetType (q : Query) (r : Record) : Bool :=
  match q.bet_type with
  | BetType.spreadWin => !(r.auto_spread == 0)
  | BetType.overWin => true
  | BetType.moneylineWin => true

/-- Predicate of stage 3 (true where the stage is skipped). -/
def pHomeAway (q : Query) (r : Record) : Bool :=
  if q.bet_type ≠ BetType.overWin ∧ q.home_away ≠ HomeAway.both then
    cellContains r.home_away (homeAwayStr q.home_away)
  else true

/-- Predicate of stage 4 (true where the stage filters nothing). -/
def pSpreadOutcome (q : Query) (r : Record) : Bool :=
  if q.bet_type = BetType.spreadWin then
    match q.spread_outcome with
    | some SpreadOutcome.favorite => decide (r.auto_spread < 0)
    | some SpreadOutcome.underdog => decide (0 < r.auto_spread)
    | some SpreadOutcome.both => true
    | none => true
  else true

/-- Predicate of stage 5 (true where the stage filters nothing). -/
def pTotals (cols : Cols) (q : Query) (r : Record) : Bool :=
  if q.bet_type = BetType.overWin then
    match q.totals_outcome with
    | some t =>
      if cols.pred_total_winner then cellContains r.pred_total_winner (totalsStr t)
      else if cols.bet then cellContains r.bet (totalsStr t)
      else true
    | none => true
  else true

/-- Predicate of stage 6 (true where the stage filters nothing). -/
def pMoneyline (q : Query) (r : Record) : Bool :=
  if q.bet_type = BetType.moneylineWin then
    match q.fav_underdog with
    | some FavUnderdog.favorite => decide (50 < r.win_probability)
    | some FavUnderdog.underdog => decide (r.win_probability ≤ 50)
    | none => true
  else true

/-- Predicate of stage 7. -/
def pWinProb (q : Query) (r : Record) : Bool :=
  decide (q.win_prob_lo ≤ r.win_probability) && decide (r.win_probability ≤ q.win_prob_hi)

/-- Predicate of stage 8. -/
def pDtm (q : Query) (r : Record) : Bool :=
  decide (q.dtm_lo ≤ r.dtm) && decide (r.dtm ≤ q.dtm_hi)

/-- Conjunction of all stage predicates, associated as the repeated collapse
of the nested stage filters produces it (outermost stage first). -/
def keepPred (cols : Cols) (q : Query) (r : Record) : Bool :=
  ((((((pDtm q r && pWinProb q r) && pMoneyline q r) && pTotals cols q r)
      && pSpreadOutcome q r) && pHomeAway q r) && pBetType q r) && pModel q r

/-- Does the column exist and hold a numeric, non-null value in every row?
This is the property the specification asserts of the canonical numeric
columns after normalization. -/
def colNumericNN (c : Option (List Cell)) : Bool :=
  match c with
  | none => false
  | some l => l.all cellIsNum

/-- Either the column is absent or all its cells are numeric. -/
def colAllNum (c : Option (List Cell)) : Bool :=
  match c with
  | none => true
  | some l => l.all cellIsNum

/-- Either the column is absent or every cell is numeric or null. -/
def colAllNumOrNull (c : Option (List Cell)) : Bool :=
  match c with
  | none => true
  | some l => l.all (fun x => cellIsNum x || x == Cell.null)

/-- A raw table holding only the loader-added model column: every other
column is missing, as the contract allows. -/
def t0 : Table :=
  { bet_type := none, spread_type := none, home_away := none, bet := none,
    home_team := none, spread_value := none, rounded_spread := none,
    pred_spread := none, spread := none, auto_spread := none, dtm := none,
    roi_percent := none, win_probability := none, bet_result := none,
    pred_total_winner := none, model_name := [Cell.str "X"] }

/-- A two-row raw table with a numeric-or-null spread column, an all-numeric
dtm column, and a win-probability column holding an unparsable string and a
null. -/
def t1 : Table :=
  { bet_type := none, spread_type := none, home_away := none, bet := none,
    home_team := none, spread_value := some [Cell.num (-3), Cell.null],
    rounded_spread := none, pred_spread := none, spread := none,
    auto_spread := none, dtm := some [Cell.num 1, Cell.num 2],
    roi_percent := none, win_probability := some [Cell.str "abc", Cell.null],
    bet_result := some [Cell.str "WIN", Cell.str "LOSS"],
    pred_total_winner := none, model_name := [Cell.str "X", Cell.str "X"] }

/-- Column flags for a table carrying neither `pred_total_winner` nor `bet`. -/
def cols0 : Cols :=
  { pred_total_winner := false, bet := false }

/-- Column flags for a table carrying `pred_total_winner`. -/
def cols9 : Cols :=
  { pred_total_winner := true, bet := false }

/-- A concrete normalized record: model "X", winning spread bet at -3. -/
def rX : Record :=
  { model_name := "X", bet_type := "Favorite Spreads", home_away := some "Home",
    auto_spread := -3, win_probability := 55, dtm := 0, roi_percent := 0,
    bet_result := "WIN", pred_total_winner := none, bet := none }

/-- The record `rX` with the normalizer's default home/away value "Both". -/
def rBoth : Record :=
  { rX with home_away := some "Both" }

/-- A totals-bet record whose predicted total winner text contains "Over". -/
def rOver : Record :=
  { rX with pred_total_winner := some "Over 220", auto_spread := 2 }

/-- A baseline query: model "X", SpreadWin with outcome Both, no home/away
restriction, full ranges, spreads included. -/
def qBase : Query :=
  { model := "X", bet_type := BetType.spreadWin,
    spread_outcome := some SpreadOutcome.both, fav_underdog := none,
    totals_outcome := none, home_away := HomeAway.both, win_prob_lo := 0,
    win_prob_hi := 100, dtm_lo := -100, dtm_hi := 100, include_spread := true }

/-- The baseline query with spreads excluded from the calculation. -/
def q2 : Query :=
  { qBase with include_spread := false }

/-- A MoneylineWin/Underdog query. -/
def q5 : Query :=
  { qBase with bet_type := BetType.moneylineWin, spread_outcome := none, fav_underdog := some FavUnderdog.underdog }

/-- A SpreadWin query selecting the Favorite spread outcome. -/
def q8 : Query :=
  { qBase with spread_outcome := some SpreadOutcome.favorite }

/-- An OverWin query selecting the Over totals outcome. -/
def q9 : Query :=
  { qBase with bet_type := BetType.overWin, spread_outcome := none, totals_outcome := some TotalsOutcome.over }

/-- A MoneylineWin query restricted to Home records. -/
def qH : Query :=
  { qBase with bet_type := BetType.moneylineWin, spread_outcome := none, fav_underdog := some FavUnderdog.underdog, home_away := HomeAway.home }

/-- One-record subset. -/
def l3 : List Record :=
  [rX]

/-- Three winning records: scenario D of the specification. -/
def l4 : List Record :=
  [rX, rX, rX]

/-- Five records with two wins (40%) and mean roi 12: scenario E. -/
def l5 : List Record :=
  [{ rX with roi_percent := 12 }, { rX with roi_percent := 12 },
   { rX with bet_result := "LOSS", roi_percent := 12 },
   { rX with bet_result := "LOSS", roi_percent := 12 },
   { rX with bet_result := "LOSS", roi_percent := 12 }]

/-- One totals record. -/
def l9 : List Record :=
  [rOver]

theorem stageModel_eq_filter (q : Query) (l : List Record) :
    stageModel q l = l.filter (pModel q) := rfl

theorem stageBetType_eq_filter (q : Query) (l : List Record) :
    stageBetType q l = l.filter (pBetType q) := by
  unfold stageBetType pBetType
  cases hq : q.bet_type <;> simp [hq]

theorem stageHomeAway_eq_filter (q : Query) (l : List Record) :
    stageHomeAway q l = l.filter (pHomeAway q) := by
  unfold stageHomeAway pHomeAway
  by_cases h : q.bet_type ≠ BetType.overWin ∧ q.home_away ≠ HomeAway.both <;> simp [h]

theorem stageSpreadOutcome_eq_filter (q : Query) (l : List Record) :
    stageSpreadOutcome q l = l.filter (pSpreadOutcome q) := by
  unfold stageSpreadOutcome pSpreadOutcome
  by_cases h : q.bet_type = BetType.spreadWin
  · rcases hso : q.spread_outcome with _ | so
    · simp [h, hso]
    · cases so <;> simp [h, hso]
  · simp [h]

theorem stageTotals_eq_filter (cols : Cols) (q : Query) (l : List Record) :
    stageTotals cols q l = l.filter (pTotals cols q) := by
  unfold stageTotals pTotals
  by_cases h : q.bet_type = BetType.overWin
  · rcases hto : q.totals_outcome with _ | t
    · simp [h, hto]
    · cases hp : cols.pred_total_winner <;> cases hb : cols.bet <;> simp [h, hto, hp, hb]
  · simp [h]

theorem stageMoneyline_eq_filter (q : Query) (l : List Record) :
    stageMoneyline q l = l.filter (pMoneyline q) := by
  unfold stageMoneyline pMoneyline
  by_cases h : q.bet_type = BetType.moneylineWin
  · rcases hf : q.fav_underdog with _ | f
    · simp [h, hf]
    · cases f <;> simp [h, hf]
  · simp [h]

theorem stageWinProb_eq_filter (q : Query) (l : List Record) :
    stageWinProb q l = l.filter (pWinProb q) := rfl

theorem stageDtm_eq_filter (q : Query) (l : List Record) :
    stageDtm q l = l.filter (pDtm q) := rfl

theorem filterPipeline_eq_filter (cols : Cols) (q : Query) (l : List Record) :
    filterPipeline cols q l = stageSpreadExclusion q (l.filter (keepPred cols q)) := by
  unfold filterPipeline
  rw [stageModel_eq_filter, stageBetType_eq_filter, stageHomeAway_eq_filter,
    stageSpreadOutcome_eq_filter, stageTotals_eq_filter, stageMoneyline_eq_filter,
    stageWinProb_eq_filter, stageDtm_eq_filter, List.filter_filter, List.filter_filter,
    List.filter_filter, List.filter_filter, List.filter_filter, List.filter_filter,
    List.filter_filter]
  rfl

theorem filter_self_idem (P : Record → Bool) (l : List Record) :
    List.filter P (List.filter P l) = List.filter P l := by
  rw [List.filter_filter]
  exact List.filter_congr (fun x _ => Bool.and_self (P x))

theorem zeroSpread_idem (r : Record) : zeroSpread (zeroSpread r) = zeroSpread r := rfl

theorem map_zeroSpread_idem (l : List Record) :
    (l.map zeroSpread).map zeroSpread = l.map zeroSpread := by
  rw [List.map_map]
  congr 1

theorem keepPred_zeroSpread (cols : Cols) (q : Query) (r : Record)
    (h : q.bet_type ≠ BetType.spreadWin) :
    keepPred cols q (zeroSpread r) = keepPred cols q r := by
  cases hq : q.bet_type
  · exact absurd hq h
  · simp [keepPred, pDtm, pWinProb, pMoneyline, pTotals, pSpreadOutcome, pHomeAway,
      pBetType, pModel, zeroSpread, hq]
  · simp [keepPred, pDtm, pWinProb, pMoneyline, pTotals, pSpreadOutcome, pHomeAway,
      pBetType, pModel, zeroSpread, hq]

theorem filter_map_zeroSpread (P : Record → Bool) (hP : ∀ r, P (zeroSpread r) = P r)
    (l : List Record) :
    List.filter P (l.map zeroSpread) = (List.filter P l).map zeroSpread := by
  rw [List.filter_map]
  congr 1
  exact List.filter_congr (fun x _ => by simpa using hP x)

/-- Claim C2, counterexample: with bet type SpreadWin and include_spread
false, applying the pipeline twice to a one-record table drops the record
(its zeroed auto_spread fails the nonzero-spread stage on the second pass),
so `filter(filter(R,Q),Q) != filter(R,Q)`. -/
theorem C2_counterexample :
    filterPipeline cols0 q2 (filterPipeline cols0 q2 [rX]) ≠ filterPipeline cols0 q2 [rX] := by
  decide

/-- Claim C2, amended: the filter pipeline is idempotent for every query
with include_spread true, and for every query whose bet type is not
SpreadWin; only SpreadWin with include_spread false can differ on a second
application. -/
theorem C2_amended (cols : Cols) (q : Query) (R : List Record)
    (h : q.include_spread = true ∨ q.bet_type ≠ BetType.spreadWin) :
    filterPipeline cols q (filterPipeline cols q R) = filterPipeline cols q R := by
  simp only [filterPipeline_eq_filter]
  cases hin : q.include_spread
  · have hb : q.bet_type ≠ BetType.spreadWin := by
      rcases h with h | h
      · rw [hin] at h; exact absurd h (by simp)
      · exact h
    simp only [stageSpreadExclusion, hin, Bool.false_eq_true, if_false]
    rw [filter_map_zeroSpread _ (fun r => keepPred_zeroSpread cols q r hb),
      filter_self_idem, map_zeroSpread_idem]
  · simp only [stageSpreadExclusion, hin, if_true]
    exact filter_self_idem _ _

/-- Claim C2 witness: the amended idempotence at a concrete query with
include_spread true and a concrete one-record table. -/
theorem C2_witness :
    qBase.include_spread = true ∧
    filterPipeline cols0 qBase (filterPipeline cols0 qBase [rX]) =
      filterPipeline cols0 qBase [rX] :=
  ⟨rfl, C2_amended cols0 qBase [rX] (Or.inl rfl)⟩

/-- Claim C7: when include_spread is false, every record of the pipeline
output has auto_spread 0, and is the zero-spread copy of a stored input
record, all other fields unchanged.  The input table itself is untouched:
the pipeline is a pure function of `data` (the source copies the frame at
line 181 before the zeroing at line 240). -/
theorem C7_spread_exclusion (cols : Cols) (q : Query) (data : List Record)
    (h : q.include_spread = false) :
    ∀ r ∈ filterPipeline cols q data, r.auto_spread = 0 ∧ ∃ s ∈ data, r = zeroSpread s := by
  intro r hr
  rw [filterPipeline_eq_filter] at hr
  simp only [stageSpreadExclusion, h, Bool.false_eq_true, if_false] at hr
  rcases List.mem_map.mp hr with ⟨s, hs, rfl⟩
  exact ⟨rfl, s, (List.mem_filter.mp hs).1, rfl⟩

/-- Claim C7 witness: the property applied to the surviving output record of
a concrete spread-excluding query. -/
theorem C7_witness :
    (zeroSpread rX).auto_spread = 0 ∧ ∃ s ∈ [rX], zeroSpread rX = zeroSpread s :=
  C7_spread_exclusion cols0 q2 [rX] rfl (zeroSpread rX) (by decide)

/-- Claim C8: for SpreadWin, the spread-outcome stage keeps exactly the
records with negative auto_spread under Favorite, exactly those with
positive auto_spread under Underdog, and is the identity under Both. -/
theorem C8_spread_outcome (q : Query) (l : List Record)
    (h : q.bet_type = BetType.spreadWin) :
    (q.spread_outcome = some SpreadOutcome.favorite →
      ∀ r : Record, r ∈ stageSpreadOutcome q l ↔ r ∈ l ∧ r.auto_spread < 0) ∧
    (q.spread_outcome = some SpreadOutcome.underdog →
      ∀ r : Record, r ∈ stageSpreadOutcome q l ↔ r ∈ l ∧ 0 < r.auto_spread) ∧
    (q.spread_outcome = some SpreadOutcome.both → stageSpreadOutcome q l = l) := by
  unfold stageSpreadOutcome
  refine ⟨fun hso r => ?_, fun hso r => ?_, fun hso => ?_⟩ <;>
    simp [h, hso, List.mem_filter]

/-- Claim C8 witness: the record with auto_spread -3 is kept under the
Favorite spread outcome (scenario A of the specification). -/
theorem C8_witness :
    rX ∈ stageSpreadOutcome q8 [rX] ↔ rX ∈ [rX] ∧ rX.auto_spread < 0 :=
  (C8_spread_outcome q8 [rX] rfl).1 rfl rX

/-- Claim C9: for OverWin the bet-type stage passes every record through,
the home/away stage is skipped, and the totals-outcome stage tests
`pred_total_winner` when that column exists, else `bet` when it exists,
else filters nothing. -/
theorem C9_overwin_stages (cols : Cols) (q : Query) (l : List Record) (t : TotalsOutcome)
    (h : q.bet_type = BetType.overWin) (ht : q.totals_outcome = some t) :
    stageBetType q l = l ∧
    stageHomeAway q l = l ∧
    (cols.pred_total_winner = true →
      stageTotals cols q l = l.filter (fun r => cellContains r.pred_total_winner (totalsStr t))) ∧
    (cols.pred_total_winner = false → cols.bet = true →
      stageTotals cols q l = l.filter (fun r => cellContains r.bet (totalsStr t))) ∧
    (cols.pred_total_winner = false → cols.bet = false → stageTotals cols q l = l) := by
  refine ⟨?_, ?_, fun hp => ?_, fun hp hb => ?_, fun hp hb => ?_⟩ <;>
    simp [stageBetType, stageHomeAway, stageTotals, h, ht, *]

/-- Claim C9 witness: the three OverWin stage behaviors at a concrete query
and table whose pred_total_winner column exists. -/
theorem C9_witness :
    stageBetType q9 l9 = l9 ∧
    stageTotals cols9 q9 l9 =
      l9.filter (fun r => cellContains r.pred_total_winner (totalsStr TotalsOutcome.over)) :=
  ⟨(C9_overwin_stages cols9 q9 l9 TotalsOutcome.over rfl rfl).1,
   (C9_overwin_stages cols9 q9 l9 TotalsOutcome.over rfl rfl).2.2.1 rfl⟩

/-- Claim C10: a record whose home/away field is "Both" (the normalizer's
default) is excluded by the home/away stage for every non-OverWin query
selecting Home or Away, since "Both" contains neither "Home" nor "Away". -/
theorem C10_homeaway_both_excluded (q : Query) (l : List Record) (r : Record)
    (hb : q.bet_type ≠ BetType.overWin)
    (hha : q.home_away = HomeAway.home ∨ q.home_away = HomeAway.away)
    (hr : r.home_away = some "Both") :
    r ∉ stageHomeAway q l := by
  intro hmem
  unfold stageHomeAway at hmem
  have hcond : q.bet_type ≠ BetType.overWin ∧ q.home_away ≠ HomeAway.both := by
    refine ⟨hb, ?_⟩
    rcases hha with h | h <;> rw [h] <;> simp
  rw [if_pos hcond] at hmem
  have hc := (List.mem_filter.mp hmem).2
  rw [hr] at hc
  rcases hha with h | h <;> rw [h] at hc <;> revert hc <;> decide

/-- Claim C10 witness: the concrete "Both" record is excluded under a
MoneylineWin query selecting Home. -/
theorem C10_witness : rBoth ∉ stageHomeAway qH [rBoth] :=
  C10_homeaway_both_excluded qH [rBoth] rBoth (by decide) (Or.inl rfl) rfl

/-- Claim C3: the statistics of lines 245-248 — total is the subset size,
wins counts exact case-sensitive "WIN" results, wins + losses = total, and
the win percentage is wins/total*100 for nonempty subsets and 0 for the
empty one. -/
theorem C3_stats (l : List Record) :
    total_bets l = l.length ∧
    total_wins l = List.countP (fun r => r.bet_result == "WIN") l ∧
    total_wins l + total_losses l = total_bets l ∧
    (0 < total_bets l → win_percentage l = (total_wins l : Rat) / (total_bets l : Rat) * 100) ∧
    (total_bets l = 0 → win_percentage l = 0) := by
  refine ⟨rfl, rfl, ?_, ?_, ?_⟩
  · have hle : total_wins l ≤ total_bets l := List.countP_le_length _
    unfold total_losses
    omega
  · intro h
    unfold win_percentage
    rw [if_pos h]
  · intro h
    unfold win_percentage
    rw [h]
    simp

/-- Claim C3 witness: the statistics identities at a concrete one-record
subset. -/
theorem C3_witness :
    total_wins l3 + total_losses l3 = total_bets l3 ∧
    win_percentage l3 = (total_wins l3 : Rat) / (total_bets l3 : Rat) * 100 :=
  ⟨(C3_stats l3).2.2.1, (C3_stats l3).2.2.2.1 (by decide)⟩

/-- Claim C4: for SpreadWin or OverWin the classification is smart exactly
when total >= 10 with win percentage >= 60, or 4 <= total < 10 with win
percentage >= 70 (lines 260-264). -/
theorem C4_smart_spread_over (q : Query) (l : List Record)
    (h : q.bet_type = BetType.spreadWin ∨ q.bet_type = BetType.overWin) :
    (is_smart_bet q l = true ↔
      ((10 ≤ total_bets l ∧ 60 ≤ win_percentage l) ∨
       (4 ≤ total_bets l ∧ total_bets l < 10 ∧ 70 ≤ win_percentage l))) := by
  unfold is_smart_bet
  rcases h with h | h <;> rw [h] <;> split_ifs with h1 h2 <;> simp [*]

/-- Claim C4 witness: scenario D — three records, all wins, SpreadWin: the
theorem's criterion fails at total = 3, so the selection is not smart
despite its 100% win rate. -/
theorem C4_witness : is_smart_bet qBase l4 = false := by
  have h := C4_smart_spread_over qBase l4 (Or.inl rfl)
  cases hsb : is_smart_bet qBase l4
  · rfl
  · exfalso
    rcases h.mp hsb with ⟨h1, _⟩ | ⟨h1, _⟩ <;> revert h1 <;> decide

/-- Claim C5: for MoneylineWin over a nonempty subset the classification is
smart exactly when the win percentage clears the threshold of the selected
side (50 for Underdog, 65 for Favorite) or the mean roi is at least 10
(lines 265-271). -/
theorem C5_smart_moneyline (q : Query) (l : List Record)
    (hb : q.bet_type = BetType.moneylineWin) (hne : l ≠ []) :
    (q.fav_underdog = some FavUnderdog.underdog →
      (is_smart_bet q l = true ↔
        (50 ≤ win_percentage l ∨ 10 ≤ (l.map Record.roi_percent).sum / (l.length : Rat)))) ∧
    (q.fav_underdog = some FavUnderdog.favorite →
      (is_smart_bet q l = true ↔
        (65 ≤ win_percentage l ∨ 10 ≤ (l.map Record.roi_percent).sum / (l.length : Rat)))) := by
  have hemp : l.isEmpty = false := by
    cases l
    · exact absurd rfl hne
    · rfl
  have hre : roiMeanGE10 l =
      decide (10 ≤ (l.map Record.roi_percent).sum / (l.length : Rat)) := by
    unfold roiMeanGE10 roiMean
    rw [hemp]
    rfl
  constructor <;> intro hf <;> simp [is_smart_bet, hb, hf, hre]

/-- Claim C5 witness: scenario E instantiated — MoneylineWin, Underdog, five
records with two wins and roi 12 each; the smart-bet label is equivalent to
the 50%-or-mean-roi criterion there. -/
theorem C5_witness :
    is_smart_bet q5 l5 = true ↔
      (50 ≤ win_percentage l5 ∨ 10 ≤ (l5.map Record.roi_percent).sum / (l5.length : Rat)) :=
  (C5_smart_moneyline q5 l5 rfl (by decide)).1 rfl

/-- Claim C6: the empty subset is handled without error — the win
percentage is 0, the NaN mean of roi over no records fails the >= 10
clause, and every bet type classifies the empty selection as not smart. -/
theorem C6_empty_subset :
    win_percentage ([] : List Record) = 0 ∧
    roiMeanGE10 ([] : List Record) = false ∧
    ∀ q : Query, is_smart_bet q ([] : List Record) = false := by
  refine ⟨rfl, rfl, fun q => ?_⟩
  rcases q with ⟨m, bt, so, f, t, ha, wl, wh, dl, dh, inc⟩
  cases bt
  · rfl
  · rcases f with _ | f
    · rfl
    · cases f <;> rfl
  · rfl

theorem fillna0_num_of_numOrNull (x : Cell) (h : (cellIsNum x || x == Cell.null) = true) :
    cellIsNum (fillna0 x) = true := by
  rcases x with q | s | _
  · rfl
  · simp [cellIsNum] at h
  · rfl

theorem fillna0_to_numeric_num (x : Cell) : cellIsNum (fillna0 (to_numeric x)) = true := by
  rcases x with q | s | _
  · rfl
  · unfold to_numeric
    rcases hp : parseNum s with _ | q <;> simp [hp, fillna0, cellIsNum]
  · rfl

theorem all_replicate_num0 (n : Nat) :
    (List.replicate n (Cell.num 0)).all cellIsNum = true := by
  simp [cellIsNum]

theorem step_bet_type_fields (df : Table) :
    (step_bet_type df).bet_type.isSome = true ∧
    (step_bet_type df).home_away = df.home_away ∧
    (step_bet_type df).bet = df.bet ∧
    (step_bet_type df).home_team = df.home_team ∧
    firstSpreadCol (step_bet_type df) = firstSpreadCol df ∧
    (step_bet_type df).dtm = df.dtm ∧
    (step_bet_type df).roi_percent = df.roi_percent ∧
    (step_bet_type df).win_probability = df.win_probability := by
  obtain ⟨bt, st, ha, b, htm, sv, rs, ps, sp, asp, dt, roi, wp, br, ptw, mn⟩ := df
  cases bt <;> cases st <;> simp [step_bet_type, firstSpreadCol]

theorem step_home_away_fields (df : Table) :
    (step_home_away df).bet_type = df.bet_type ∧
    (step_home_away df).home_away.isSome = true ∧
    firstSpreadCol (step_home_away df) = firstSpreadCol df ∧
    (step_home_away df).bet = df.bet ∧
    (step_home_away df).dtm = df.dtm ∧
    (step_home_away df).roi_percent = df.roi_percent ∧
    (step_home_away df).win_probability = df.win_probability := by
  obtain ⟨bt, st, ha, b, htm, sv, rs, ps, sp, asp, dt, roi, wp, br, ptw, mn⟩ := df
  cases ha <;> cases b <;> cases htm <;> simp [step_home_away, firstSpreadCol]

theorem step_auto_spread_fields (df : Table) :
    (step_auto_spread df).bet_type = df.bet_type ∧
    (step_auto_spread df).home_away = df.home_away ∧
    (step_auto_spread df).dtm = df.dtm ∧
    (step_auto_spread df).roi_percent = df.roi_percent ∧
    (step_auto_spread df).win_probability = df.win_probability := by
  unfold step_auto_spread
  rcases hsc : firstSpreadCol df with _ | c
  · rcases hb : df.bet with _ | c <;> simp [hsc, hb]
  · simp [hsc]

theorem step_auto_spread_num (df : Table)
    (h : colAllNumOrNull (firstSpreadCol df) = true) :
    colNumericNN (step_auto_spread df).auto_spread = true := by
  unfold step_auto_spread
  rcases hsc : firstSpreadCol df with _ | c
  · rcases hb : df.bet with _ | c
    · simp [hsc, hb, colNumericNN, cellIsNum]
    · simp [hsc, hb, colNumericNN, List.all_eq_true]
      intro x hx
      rfl
  · rw [hsc] at h
    simp only [colAllNumOrNull, List.all_eq_true] at h
    simp [hsc, colNumericNN, List.all_eq_true]
    intro x hx
    have := fillna0_num_of_numOrNull x (h x hx)
    simpa using this

theorem step_dtm_fields (df : Table) :
    (step_dtm df).bet_type = df.bet_type ∧
    (step_dtm df).home_away = df.home_away ∧
    (step_dtm df).auto_spread = df.auto_spread ∧
    (step_dtm df).roi_percent = df.roi_percent ∧
    (step_dtm df).win_probability = df.win_probability := by
  obtain ⟨bt, st, ha, b, htm, sv, rs, ps, sp, asp, dt, roi, wp, br, ptw, mn⟩ := df
  cases dt <;> simp [step_dtm]

theorem step_dtm_num (df : Table) (h : colAllNum df.dtm = true) :
    colNumericNN (step_dtm df).dtm = true := by
  unfold step_dtm
  rcases hd : df.dtm with _ | c
  · simp [hd, colNumericNN, cellIsNum]
  · rw [hd] at h
    simpa [hd, colNumericNN, colAllNum, List.all_eq_true] using h

theorem step_roi_fields (df : Table) :
    (step_roi df).bet_type = df.bet_type ∧
    (step_roi df).home_away = df.home_away ∧
    (step_roi df).auto_spread = df.auto_spread ∧
    (step_roi df).dtm = df.dtm ∧
    (step_roi df).win_probability = df.win_probability := by
  obtain ⟨bt, st, ha, b, htm, sv, rs, ps, sp, asp, dt, roi, wp, br, ptw, mn⟩ := df
  cases roi <;> simp [step_roi]

theorem step_roi_num (df : Table) (h : colAllNum df.roi_percent = true) :
    colNumericNN (step_roi df).roi_percent = true := by
  unfold step_roi
  rcases hd : df.roi_percent with _ | c
  · simp [hd, colNumericNN, cellIsNum]
  · rw [hd] at h
    simpa [hd, colNumericNN, colAllNum, List.all_eq_true] using h

theorem step_win_prob_fields (df : Table) :
    (step_win_prob df).bet_type = df.bet_type ∧
    (step_win_prob df).home_away = df.home_away ∧
    (step_win_prob df).auto_spread = df.auto_spread ∧
    (step_win_prob df).dtm = df.dtm ∧
    (step_win_prob df).roi_percent = df.roi_percent := by
  obtain ⟨bt, st, ha, b, htm, sv, rs, ps, sp, asp, dt, roi, wp, br, ptw, mn⟩ := df
  cases wp <;> simp [step_win_prob]

theorem step_win_prob_num (df : Table) (h : df.win_probability.isSome = true) :
    colNumericNN (step_win_prob df).win_probability = true := by
  unfold step_win_prob
  rcases hw : df.win_probability with _ | c
  · rw [hw] at h
    simp at h
  · simp [hw, colNumericNN, List.all_eq_true]
    intro x hx
    have := fillna0_to_numeric_num x
    simpa using this

theorem step_bet_result_fields (df : Table) :
    (step_bet_result df).bet_type = df.bet_type ∧
    (step_bet_result df).home_away = df.home_away ∧
    (step_bet_result df).auto_spread = df.auto_spread ∧
    (step_bet_result df).dtm = df.dtm ∧
    (step_bet_result df).roi_percent = df.roi_percent ∧
    (step_bet_result df).win_probability = df.win_probability := by
  obtain ⟨bt, st, ha, b, htm, sv, rs, ps, sp, asp, dt, roi, wp, br, ptw, mn⟩ := df
  cases br <;> simp [step_bet_result]

/-- Claim C1, counterexample: on an input table that lacks a "win
probability" column, `preprocess_data` does not create one (lines 116-117
only convert an existing column), so the returned table does not contain
all canonical fields and `win_probability` is not numeric-and-non-null. -/
theorem C1_counterexample :
    (preprocess_data t0).win_probability = none ∧
    colNumericNN (preprocess_data t0).win_probability = false :=
  ⟨rfl, rfl⟩

/-- Claim C1, amended: normalization always creates the bet-type, home/away,
auto_spread, dtm and roi columns; auto_spread, dtm, roi_percent and
win_probability hold numeric non-null values in every row provided the
input's dtm and roi columns (when present) are numeric, the detected spread
source column holds only numeric-or-null cells, and the input does carry a
win probability column — unparsable win-probability values become 0.0 and
missing dtm/roi columns default to 0.0.  Without a win probability column
in the input, the output lacks that field (see the counterexample). -/
theorem C1_amended (df : Table) (hwp : df.win_probability.isSome = true)
    (hdtm : colAllNum df.dtm = true) (hroi : colAllNum df.roi_percent = true)
    (hsp : colAllNumOrNull (firstSpreadCol df) = true) :
    (preprocess_data df).bet_type.isSome = true ∧
    (preprocess_data df).home_away.isSome = true ∧
    colNumericNN (preprocess_data df).auto_spread = true ∧
    colNumericNN (preprocess_data df).win_probability = true ∧
    colNumericNN (preprocess_data df).dtm = true ∧
    colNumericNN (preprocess_data df).roi_percent = true := by
  obtain ⟨h1bt, h1ha, h1b, h1ht, h1sc, h1dt, h1roi, h1wp⟩ := step_bet_type_fields df
  obtain ⟨h2bt, h2ha, h2sc, h2b, h2dt, h2roi, h2wp⟩ :=
    step_home_away_fields (step_bet_type df)
  obtain ⟨h3bt, h3ha, h3dt, h3roi, h3wp⟩ :=
    step_auto_spread_fields (step_home_away (step_bet_type df))
  obtain ⟨h4bt, h4ha, h4as, h4roi, h4wp⟩ :=
    step_dtm_fields (step_auto_spread (step_home_away (step_bet_type df)))
  obtain ⟨h5bt, h5ha, h5as, h5dt, h5wp⟩ :=
    step_roi_fields (step_dtm (step_auto_spread (step_home_away (step_bet_type df))))
  obtain ⟨h6bt, h6ha, h6as, h6dt, h6roi⟩ :=
    step_win_prob_fields (step_roi (step_dtm (step_auto_spread
      (step_home_away (step_bet_type df)))))
  obtain ⟨h7bt, h7ha, h7as, h7dt, h7roi, h7wp⟩ :=
    step_bet_result_fields (step_win_prob (step_roi (step_dtm (step_auto_spread
      (step_home_away (step_bet_type df))))))
  unfold preprocess_data
  refine ⟨?_, ?_, ?_, ?_, ?_, ?_⟩
  · rw [h7bt, h6bt, h5bt, h4bt, h3bt, h2bt]
    exact h1bt
  · rw [h7ha, h6ha, h5ha, h4ha, h3ha]
    exact h2ha
  · rw [h7as, h6as, h5as, h4as]
    apply step_auto_spread_num
    rw [h2sc, h1sc]
    exact hsp
  · rw [h7wp]
    apply step_win_prob_num
    rw [h5wp, h4wp, h3wp, h2wp, h1wp]
    exact hwp
  · rw [h7dt, h6dt, h5dt]
    apply step_dtm_num
    rw [h3dt, h2dt, h1dt]
    exact hdtm
  · rw [h7roi, h6roi]
    apply step_roi_num
    rw [h4roi, h3roi, h2roi, h1roi]
    exact hroi

/-- Claim C1 witness: the amended normalization guarantee at a concrete
two-row table with a numeric-or-null spread column, a numeric dtm column,
no roi column, and a win-probability column holding an unparsable string
and a null. -/
theorem C1_witness :
    (preprocess_data t1).bet_type.isSome = true ∧
    (preprocess_data t1).home_away.isSome = true ∧
    colNumericNN (preprocess_data t1).auto_spread = true ∧
    colNumericNN (preprocess_data t1).win_probability = true ∧
    colNumericNN (preprocess_data t1).dtm = true ∧
    colNumericNN (preprocess_data t1).roi_percent = true :=
  C1_amended t1 rfl (by decide) (by decide) (by decide)
